import Mathlib

/-!
Verification development for the xsuite LHC test-setup repository.

The Python sources are embedded shallowly:

* `lhc_beam.py` — the `LHC` / `LHCBeam` dataclasses: path handling,
  modifier resolution (`LHC._find_modifiers`), beam-derived accessors
  (`bv`, `other_beam`, `sequence`, `cycling_element`) and the set of
  attributes the classes define.
* `lhc_single_beam.py` — the staged pipeline
  (`load_sequence_and_optics`, `create_line`, `nominal`,
  `install_errors`, `create_turn_by_turn_data`,
  `create_omc3_model_dir`), embedded as effect-trace programs over an
  abstract external engine.
* `utils/xsuite.py` — `match` and `insert_monitors_at_pattern`.
* `utils/tfs.py` — `twiss_to_omc3`.

Stateful code is modelled by explicit effect traces (`Except` over an
error type paired with the trace of effects completed before the
failure); external collaborators (the MAD-X engine, the regex engine,
the xtrack solver) are oracles passed in as parameters.
-/

namespace LhcXsuite

/-! ### Model of `pathlib` paths and the filesystem

`PPath` models a `pathlib.Path`: an absolute flag plus components.
Joining with an absolute right operand discards the left operand,
exactly as in `pathlib`. The filesystem is the set of existing files.
-/

/-- Prefix test on strings (the anchored matching `re.match` performs
for a literal pattern, and Python's `str.startswith`), implemented over
the character list so that it evaluates inside the kernel. -/
def strStartsWith (s pre : String) : Bool :=
  pre.data.isPrefixOf s.data

/-- Python's `str.upper` on the ASCII element names handled here,
implemented over the character list so that it evaluates inside the
kernel. -/
def strToUpper (s : String) : String :=
  ⟨s.data.map Char.toUpper⟩

/-- Model of a `pathlib.Path`: absolute flag and path components. -/
structure PPath where
  isAbs : Bool
  comps : List String
deriving DecidableEq

/-- Model of `pathlib`'s `/` operator: an absolute right operand wins. -/
def PPath.join (p q : PPath) : PPath :=
  if q.isAbs then q else ⟨p.isAbs, p.comps ++ q.comps⟩

/-- Model of `p / "s"` for a single literal component. -/
def PPath.child (p : PPath) (s : String) : PPath :=
  ⟨p.isAbs, p.comps ++ [s]⟩

/-- Model of `Path(m).absolute()`: prefix the process working directory
unless the path is already absolute. -/
def pathAbsolute (cwd p : PPath) : PPath :=
  if p.isAbs then p else cwd.join p

/-- The filesystem, as the list of paths that exist as files. -/
structure FS where
  files : List PPath

/-- Model of `Path.is_file`. -/
def FS.is_file (fs : FS) (p : PPath) : Bool :=
  fs.files.contains p

/-! ### `LHC._find_modifiers` (src/lhc_beam.py, lines 66-93)

For each modifier reference the code builds the tuple `sources =
(Path(modifier).absolute(), modifier, acc_models_link / "operation" /
"optics" / modifier)` and takes the first entry `s` with
`(model_dir / s).is_file()`; if none exists it raises
`FileNotFoundError(f"Could not find modifier {modifier} in {sources}")`.
-/

/-- The error raised by `_find_modifiers`: the Python
`FileNotFoundError` message interpolates the unresolved reference and
the tuple of all attempted locations, modelled here as structured data. -/
structure ModifierNotFound where
  modifier : PPath
  attempted : List PPath
deriving DecidableEq

/-- The `sources` tuple of `_find_modifiers`, in program order. -/
def modifier_sources (cwd acc_link : PPath) (m : PPath) : List PPath :=
  [pathAbsolute cwd m, m, ((acc_link.child "operation").child "optics").join m]

/-- One iteration of the `_find_modifiers` loop: first source whose
join with the model directory is an existing file wins; otherwise the
`FileNotFoundError` is raised. -/
def find_one_modifier (fs : FS) (cwd model_dir acc_link : PPath) (m : PPath) :
    Except ModifierNotFound PPath :=
  let sources := modifier_sources cwd acc_link m
  match sources.find? (fun s => fs.is_file (model_dir.join s)) with
  | some s => Except.ok s
  | none => Except.error ⟨m, sources⟩

/-- `LHC._find_modifiers`: `None` becomes the empty list, otherwise
each reference is resolved in order and the first failure aborts. -/
def find_modifiers (fs : FS) (cwd model_dir acc_link : PPath) :
    Option (List PPath) → Except ModifierNotFound (List PPath)
  | none => Except.ok []
  | some ms => ms.mapM (find_one_modifier fs cwd model_dir acc_link)

/-- Constructor arguments of the `LHC` dataclass that modifier
resolution reads (the numeric fields are irrelevant to resolution). -/
structure LHCInit where
  model_dir : PPath
  acc_models_link : PPath
  modifiers : Option (List PPath)

/-- A successfully constructed `LHC` object: `__post_init__` replaced
the modifier references by the resolved paths. The floating-point
emittance/energy-spread computation of `__post_init__` is not modelled;
no claim depends on it. -/
structure LHCResolved where
  model_dir : PPath
  acc_models_link : PPath
  modifiers : List PPath

/-- The modifier-resolution part of `LHC.__post_init__`: a raised
`FileNotFoundError` aborts construction, so no object is produced. -/
def lhc_construct (fs : FS) (cwd : PPath) (cfg : LHCInit) :
    Except ModifierNotFound LHCResolved :=
  (find_modifiers fs cwd cfg.model_dir cfg.acc_models_link cfg.modifiers).map
    (fun ms => ⟨cfg.model_dir, cfg.acc_models_link, ms⟩)

/-! ### Attributes defined on `LHC` and `LHCBeam` (src/lhc_beam.py)

Python resolves `beam.get_line_path` by looking the name up on the
instance and its classes; the lists below enumerate every dataclass
field, class variable, method, property and `__post_init__`-assigned
instance attribute that `LHC` and `LHCBeam` define (generated dunder
methods such as `__init__`/`__repr__`/`__eq__` are omitted — none of
them is named `get_line_path`).
-/

/-- Names defined by the `LHC` dataclass. -/
def lhc_attribute_names : List String :=
  ["year", "model_dir", "modifiers", "nat_tunes", "energy", "chroma",
   "emittance_norm", "n_particles", "acc_models_link",
   "ACCEL", "TWISS_COLUMNS",
   "emittance", "rel_energy_spread",
   "__post_init__", "_create_symlink", "_find_modifiers",
   "get_sequence_file_for_beam", "get_sequence_for_beam"]

/-- Names defined by `LHCBeam` itself, on top of those of `LHC`. -/
def lhcbeam_attribute_names : List String :=
  lhc_attribute_names ++
  ["beam", "output_path", "cycling_element", "other_beam", "bv",
   "sequence", "sequence_file"]

/-- Model of `hasattr(beam, name)` for an `LHCBeam` instance. -/
def hasattr_lhcbeam (name : String) : Bool :=
  lhcbeam_attribute_names.contains name

/-! ### `LHCBeam` accessors (src/lhc_beam.py, lines 95-152) -/

/-- `LHC.get_sequence_file_for_beam`. -/
def get_sequence_file_for_beam (b : Nat) : String :=
  if b = 4 then "lhcb4.seq" else "lhc.seq"

/-- `LHC.get_sequence_for_beam`. -/
def get_sequence_for_beam (b : Nat) : String :=
  if b = 4 then "lhcb2" else "lhcb" ++ toString b

/-- The fields of an `LHCBeam` instance that `load_sequence_and_optics`
reads (modifiers already resolved by construction). -/
structure BeamCfg where
  beam : Nat
  modifiers : List String
  energy : ℚ
  n_particles : ℚ
  acc_models_link : String

/-- `LHCBeam.bv`: circulation sign. -/
def BeamCfg.bv (c : BeamCfg) : Int :=
  if c.beam = 2 then -1 else 1

/-- `LHCBeam.other_beam`: the conjugate beam index. -/
def BeamCfg.other_beam (c : BeamCfg) : Nat :=
  if c.beam = 2 ∨ c.beam = 4 then 1 else 2

/-- `LHCBeam.cycling_element`: first element after injection. -/
def BeamCfg.cycling_element (c : BeamCfg) : String :=
  if c.beam = 1 then "MSIA.EXIT.B1" else "MKI.A5R8.B2"

/-- `LHCBeam.sequence`. -/
def BeamCfg.sequence (c : BeamCfg) : String :=
  get_sequence_for_beam c.beam

/-- `LHCBeam.sequence_file`. -/
def BeamCfg.sequence_file (c : BeamCfg) : String :=
  get_sequence_file_for_beam c.beam

/-! ### `load_sequence_and_optics` (src/lhc_single_beam.py, lines 38-77)

The MAD-X engine is external; each engine call is an effect. An oracle
`MEffect → Bool` says which call raises; a call that raises is not
recorded as completed, and the exception aborts the run carrying the
trace of completed effects (Python has no handler in this function).
The two `madx.call` sites (sequence/correction files vs. modifier
files) are distinguished by constructor so the embedding can talk about
"before any modifier is applied".
-/

/-- Effects performed against the cpymad `Madx` handle. -/
inductive MEffect where
  | madxStart
  | callFile (path : String)
  | seqedit (seq : String)
  | flatten
  | cycle (start : String)
  | endedit
  | beamDecl (seq : String) (bv : Int) (energy : ℚ) (npart : ℚ)
  | callModifier (file : String)
deriving DecidableEq

/-- Whether an effect is the beam-parameter declaration (`madx.beam`). -/
def MEffect.isBeamDecl : MEffect → Bool
  | .beamDecl _ _ _ _ => true
  | _ => false

/-- Whether an effect applies an optics modifier file. -/
def MEffect.isModifierCall : MEffect → Bool
  | .callModifier _ => true
  | _ => false

/-- Attempt one engine call: on success it is appended to the trace, on
failure the exception propagates with the trace completed so far. -/
def emitE (o : MEffect → Bool) (tr : List MEffect) (e : MEffect) :
    Except (MEffect × List MEffect) (List MEffect) :=
  if o e then Except.error (e, tr) else Except.ok (tr ++ [e])

/-- The oracle under which every engine call succeeds. -/
def okOracle : MEffect → Bool := fun _ => false

/-- `load_sequence_and_optics`, as the sequence of engine calls it
performs: start MAD-X, call the sequence file, open the seqedit scope,
flatten, cycle, endedit, declare both beams (subject with `bv`,
conjugate with `-bv`), call each modifier, call the symmetry-removal
file. -/
def load_sequence_and_optics (cfg : BeamCfg) (o : MEffect → Bool) :
    Except (MEffect × List MEffect) (List MEffect) := do
  let tr ← emitE o [] MEffect.madxStart
  let tr ← emitE o tr (MEffect.callFile (cfg.acc_models_link ++ "/" ++ cfg.sequence_file))
  let tr ← emitE o tr (MEffect.seqedit cfg.sequence)
  let tr ← emitE o tr MEffect.flatten
  let tr ← emitE o tr (MEffect.cycle cfg.cycling_element)
  let tr ← emitE o tr MEffect.endedit
  let tr ← emitE o tr (MEffect.beamDecl cfg.sequence cfg.bv cfg.energy cfg.n_particles)
  let tr ← emitE o tr (MEffect.beamDecl (get_sequence_for_beam cfg.other_beam) (-cfg.bv) cfg.energy cfg.n_particles)
  let tr ← cfg.modifiers.foldlM (fun t m => emitE o t (MEffect.callModifier m)) tr
  emitE o tr (MEffect.callFile (cfg.acc_models_link ++ "/toolkit/remove-triplet-symmetry-knob.madx"))

/-- The trace of completed effects, whether or not the run raised. -/
def resultTrace : Except (MEffect × List MEffect) (List MEffect) → List MEffect
  | .ok tr => tr
  | .error p => p.2

/-- Whether an `Except` run returned normally. -/
def exOk {ε α : Type} : Except ε α → Bool
  | .ok _ => true
  | .error _ => false

/-- `endedit` occurs before the first beam-parameter declaration. -/
def editClosedBeforeBeam (tr : List MEffect) : Bool :=
  (tr.takeWhile (fun e => !e.isBeamDecl)).contains MEffect.endedit

/-- Oracle modelling a MAD-X failure inside `madx.flatten()`. -/
def flattenFailOracle : MEffect → Bool
  | .flatten => true
  | _ => false

/-- Oracle modelling a MAD-X failure inside `madx.cycle(...)`. -/
def cycleFailOracle : MEffect → Bool
  | .cycle _ => true
  | _ => false

/-! ### `match` (src/utils/xsuite.py, lines 18-41)

The `vary` list built by the function is heterogeneous: for
`chroma=True` the code executes
`vary.append(xt.Vary(...) for plane in "xy")`, i.e. it appends the
generator expression itself as one element (it does not extend the list
with the two `xt.Vary` objects the generator would yield), so the list
is modelled by an inductive type with a constructor for proper
`xt.Vary` entries and one for the appended generator object. -/

/-- An element of the `vary` list passed to `line.match`. -/
inductive VaryItem where
  | vary (name : String) (step : ℚ)
  | generatorObject
deriving DecidableEq

/-- An element of the `targets` list passed to `line.match`
(`xt.TargetSet` with tune or chromaticity keywords). -/
inductive TargetItem where
  | tunes (qx qy tol : ℚ)
  | chromas (dqx dqy tol : ℚ)
deriving DecidableEq

/-- The `tune_knob` template `"dq{plane}.b{beam}_op"`, formatted. -/
def tune_knob_name (plane : String) (beam : Nat) : String :=
  "dq" ++ plane ++ ".b" ++ toString beam ++ "_op"

/-- The `chroma_knob` template `"dqp{plane}.b{beam}_op"`, formatted. -/
def chroma_knob_name (plane : String) (beam : Nat) : String :=
  "dqp" ++ plane ++ ".b" ++ toString beam ++ "_op"

/-- The `vary` list as `match` builds it: two tune knobs, then — with
`chroma=True` — the single appended generator object. -/
def match_vary (beam : Nat) (step : ℚ) (chroma : Bool) : List VaryItem :=
  let base := ["x", "y"].map (fun p => VaryItem.vary (tune_knob_name p beam) step)
  if chroma then base ++ [VaryItem.generatorObject] else base

/-- The `targets` list as `match` builds it. -/
def match_targets (qx qy chroma_target tol : ℚ) (chroma : Bool) : List TargetItem :=
  let base := [TargetItem.tunes qx qy tol]
  if chroma then base ++ [TargetItem.chromas chroma_target chroma_target tol] else base

/-- Whether a `vary` entry is a proper `xt.Vary` on a chromaticity knob
(name starting with `dqp`). -/
def VaryItem.isChromaVary : VaryItem → Bool
  | .vary n _ => strStartsWith n "dqp"
  | .generatorObject => false

/-- Effects performed by `match` (xtrack calls and logging). -/
inductive XEffect where
  | logInfo (msg : String)
  | disableLoggingEnter
  | lineMatch (vary : List VaryItem) (targets : List TargetItem)
  | solveCall
  | disableLoggingExit
deriving DecidableEq

/-- Whether an effect is a logging call. -/
def XEffect.isLogInfo : XEffect → Bool
  | .logInfo _ => true
  | _ => false

/-- The message of the `LOGGER.info` call at the top of `match`. Python
operator precedence parses the source expression as
`("Matching line to natural tunes" + "") if not chroma else " and chroma"`. -/
def match_log_msg (chroma : Bool) : String :=
  if chroma then " and chroma" else "Matching line to natural tunes"

/-- `match`, as an effect trace. The outcome of `opt.solve()` is decided
by the external xtrack solver and is an input (`Except.error` when the
solver raises, as its default `assert_within_tol` behaviour does on
non-convergence; the commented-out `opt.assert_within_tol=False` line in
the source would change that default). `match` itself installs no
handler: a solver exception propagates, after the `disable_logging`
context manager restores logging on exit. -/
def match_run (beam : Nat) (qx qy chroma_target step tol : ℚ) (chroma : Bool)
    (solveOutcome : Except String Unit) :
    Except (String × List XEffect) (List XEffect) :=
  let vary := match_vary beam step chroma
  let targets := match_targets qx qy chroma_target tol chroma
  let tr := [XEffect.logInfo (match_log_msg chroma), XEffect.disableLoggingEnter,
             XEffect.lineMatch vary targets]
  match solveOutcome with
  | .ok _ => Except.ok (tr ++ [XEffect.solveCall, XEffect.disableLoggingExit])
  | .error e => Except.error (e, tr ++ [XEffect.disableLoggingExit])

/-- The trace of completed effects of a `match` run. -/
def resultTraceX : Except (String × List XEffect) (List XEffect) → List XEffect
  | .ok tr => tr
  | .error p => p.2

/-! ### `insert_monitors_at_pattern` (src/utils/xsuite.py, lines 44-76)

`re.match(pattern, name, flags=re.IGNORECASE)` lives in the Python
regex engine; it is abstracted as an oracle
`rmatch : String → String → Bool` taking the pattern and the name.
The `line.env.elements` dict is modelled as an association list with
the most recent binding first (lookup by first match, which gives dict
update semantics). `line.insert(inserts)` is one batch call; the list
of batches records each such call. -/

/-- The `ValueError` raised on an empty selection; its message
interpolates the attempted pattern. -/
structure SelectionError where
  pattern : String
deriving DecidableEq

/-- An `xt.ParticlesMonitor`, by its constructor arguments. -/
structure Monitor where
  start_at_turn : Nat
  stop_at_turn : Nat
  num_particles : Nat
deriving DecidableEq

/-- An `xt.Place` placement instruction (`line.env.place(name, at=s)`). -/
structure Place where
  name : String
  at_s : ℚ
deriving DecidableEq

/-- The slice of an `xt.Line` that `insert_monitors_at_pattern` touches:
element names, longitudinal positions (`line.get_s_position`), the
element environment, and the record of `line.insert` batch calls. -/
structure Line where
  element_names : List String
  s_position : String → ℚ
  env_elements : List (String × Monitor)
  insert_batches : List (List Place)

/-- Lookup in the modelled `line.env.elements` dict. -/
def envLookup (env : List (String × Monitor)) (k : String) : Option Monitor :=
  (env.find? (fun p => p.1 == k)).map (fun p => p.2)

/-- Result of `insert_monitors_at_pattern`: the (possibly updated) line,
the raised error if any, and how many monitor copies were constructed. -/
structure InsertOutcome where
  line : Line
  err : Option SelectionError
  monitors_constructed : Nat

/-- `insert_monitors_at_pattern`: filter the element names through the
regex oracle; raise before anything else if the selection is empty;
otherwise build one base monitor, register a copy per selected element
under `<name>_monitor`, collect the placement instructions, and apply
them in a single `line.insert` batch. -/
def insert_monitors_at_pattern (rmatch : String → String → Bool) (line : Line)
    (patt : String) (n_turns n_particles : Nat) : InsertOutcome :=
  let selected := line.element_names.filter (fun n => rmatch patt n)
  if selected.isEmpty then
    { line := line, err := some ⟨patt⟩, monitors_constructed := 0 }
  else
    let base : Monitor := ⟨0, n_turns, n_particles⟩
    let env' := selected.foldl (fun e n => (n ++ "_monitor", base) :: e) line.env_elements
    let inserts := selected.map (fun n => Place.mk (n ++ "_monitor") (line.s_position n))
    { line := { line with env_elements := env',
                          insert_batches := line.insert_batches ++ [inserts] },
      err := none,
      monitors_constructed := selected.length }

/-! ### `twiss_to_omc3` (src/utils/tfs.py, lines 12-42) and
`create_omc3_model_dir` (src/lhc_single_beam.py, lines 208-244)

The dataframe manipulation is embedded at the level the claims speak
about: row index (element names), column names and headers. Cell values
pass through `to_pandas`/`loc` untouched and are not modelled. -/

/-- `LHC.TWISS_COLUMNS` (src/lhc_beam.py, lines 35-40): the fixed
column contract, with the `K{i}{s}L` comprehension expanded. -/
def TWISS_COLUMNS : List String :=
  ["NAME", "KEYWORD", "S", "X", "Y", "L", "LRAD",
   "BETX", "BETY", "ALFX", "ALFY",
   "DX", "DY", "MUX", "MUY",
   "R11", "R12", "R21", "R22",
   "K0L", "K0SL", "K1L", "K1SL", "K2L", "K2SL", "K3L", "K3SL",
   "K4L", "K4SL", "K5L", "K5SL", "K6L", "K6SL", "K7L", "K7SL"]

/-- The slice of an `xt.TwissTable` that `twiss_to_omc3` reads: element
names in lattice order, the `to_pandas` column names (lowercase,
including `name`), the tunes, and the chromaticities when defined. -/
structure TwissIn where
  names : List String
  cols : List String
  qx : ℚ
  qy : ℚ
  dq : Option (ℚ × ℚ)
deriving DecidableEq

/-- The index/columns/headers view of the `tfs.TfsDataFrame` produced
by `twiss_to_omc3`. -/
structure TfsDf where
  index : List String
  columns : List String
  headers : List (String × ℚ)
deriving DecidableEq

/-- The row filter `df.index.str.match("M|BPM|IP")`: `re.match` against
the alternation, i.e. the name starts with `M`, `BPM` or `IP`. -/
def matchesMBPMIP (s : String) : Bool :=
  strStartsWith s "M" || strStartsWith s "BPM" || strStartsWith s "IP"

/-- `twiss_to_omc3`: set `name` as index, add the `Q1`/`Q2` headers and
(when `dqx` is defined) `DQ1`/`DQ2`, uppercase columns and index, rename
`LENGTH` to `L`, then keep only the rows matching `M|BPM|IP` and the
columns of `TWISS_COLUMNS` that are present. -/
def twiss_to_omc3 (tw : TwissIn) : TfsDf :=
  let headers := [("Q1", tw.qx), ("Q2", tw.qy)] ++
    (match tw.dq with
     | some dqv => [("DQ1", dqv.1), ("DQ2", dqv.2)]
     | none => [])
  let cols := ((tw.cols.erase "name").map strToUpper).map
    (fun c => if c = "LENGTH" then "L" else c)
  let index := tw.names.map strToUpper
  { index := index.filter matchesMBPMIP,
    columns := TWISS_COLUMNS.filter (fun c => cols.contains c),
    headers := headers }

/-- The files `create_omc3_model_dir` writes, by their content visible
to the claims: the `twiss_elements.dat` and `twiss.dat` row indices
(both share the columns and headers of the single dataframe `df`), and
the lines of `modifiers.madx`. -/
structure Omc3Export where
  twiss_elements_index : List String
  twiss_index : List String
  columns : List String
  headers : List (String × ℚ)
  modifiers_madx : List String
deriving DecidableEq

/-- `create_omc3_model_dir`, on an already-loaded line: compute the
twiss table, convert with `twiss_to_omc3`, add the `ENERGY` header,
write the full dataframe as `twiss_elements.dat` and its
`str.match("BPM")` row subset as `twiss.dat`, and write one
`call, file = "...";` line per configured modifier. -/
def create_omc3_export (tw : TwissIn) (energy : ℚ) (modifiers : List String) :
    Omc3Export :=
  let df := twiss_to_omc3 tw
  { twiss_elements_index := df.index,
    twiss_index := df.index.filter (fun s => strStartsWith s "BPM"),
    columns := df.columns,
    headers := df.headers ++ [("ENERGY", energy)],
    modifiers_madx := modifiers.map (fun m => "call, file = \"" ++ m ++ "\";") }

/-! ### Particle construction in `create_turn_by_turn_data`
(src/lhc_single_beam.py, lines 194-199) -/

/-- The beta-function columns of the twiss table used for the
action-to-offset conversion, in lattice order. -/
structure TwissOptics where
  betx : List ℝ
  bety : List ℝ

/-- The single-particle initial condition handed to
`line.build_particles` (`num_particles=1, x=[x], y=[y], px=[0], py=[0]`). -/
structure ParticleInit where
  num_particles : Nat
  x : ℝ
  y : ℝ
  px : ℝ
  py : ℝ

/-- The initial condition built by `create_turn_by_turn_data`:
`x = sqrt(action * tw["betx"][0])`, `y = sqrt(action * tw["bety"][0])`,
zero transverse angles, one particle. -/
noncomputable def tbt_initial_particle (tw : TwissOptics) (action : ℝ) : ParticleInit :=
  { num_particles := 1,
    x := Real.sqrt (action * tw.betx.headI),
    y := Real.sqrt (action * tw.bety.headI),
    px := 0,
    py := 0 }

/-! ### Stage-artifact lifecycle (src/lhc_single_beam.py)

Every save or load of a stage artifact goes through
`beam.get_line_path(step)`. The functions below embed the pipeline
stages as effect traces; the artifact-path lookup is the attribute
access modelled by `hasattr_lhcbeam`, and Python raises
`AttributeError` when the attribute is missing, before the artifact
file is touched (the call computes the path argument first). -/

/-- The `Step` enum (`StrEnum` with `auto()` values). -/
inductive Step where
  | raw
  | nominal
  | with_errors
deriving DecidableEq

/-- The string value of a `Step` member. -/
def Step.value : Step → String
  | .raw => "raw"
  | .nominal => "nominal"
  | .with_errors => "with_errors"

/-- Python exceptions surfaced by the pipeline stages. -/
inductive PyErr where
  | attributeError (cls attr : String)
deriving DecidableEq

/-- Effects performed by the pipeline stage functions. -/
inductive PEffect where
  | log (msg : String)
  | engine (e : MEffect)
  | other (desc : String)
  | matchCall
  | setKnob (name : String) (value : ℚ)
  | artifactRead (s : Step)
  | artifactWrite (s : Step)
  | insertMonitorsCall
  | trackCall
  | sddsWrite
deriving DecidableEq

/-- Whether an effect reads or writes a stage artifact file. -/
def PEffect.isStageArtifactIO : PEffect → Bool
  | .artifactRead _ => true
  | .artifactWrite _ => true
  | _ => false

/-- The attribute access `beam.get_line_path`: succeeds only if the
attribute exists on `LHCBeam`; otherwise the `AttributeError`
propagates, carrying the trace of effects completed so far. -/
def get_line_path_attr (tr : List PEffect) : Except (PyErr × List PEffect) Unit :=
  if hasattr_lhcbeam "get_line_path" then Except.ok ()
  else Except.error (PyErr.attributeError "LHCBeam" "get_line_path", tr)

/-- `create_line`: log, run `load_sequence_and_optics` (all engine
calls succeeding), build the line, then save the raw stage via
`line.to_json(beam.get_line_path(Step.raw))` — the path argument is
evaluated before any write. -/
def create_line_run (cfg : BeamCfg) : Except (PyErr × List PEffect) (List PEffect) := do
  let tr := [PEffect.log "Creating line"] ++
    (resultTrace (load_sequence_and_optics cfg okOracle)).map PEffect.engine ++
    [PEffect.other "Line.from_madx_sequence",
     PEffect.other "twiss_default method = 4d",
     PEffect.other "particle_ref"]
  let _ ← get_line_path_attr tr
  Except.ok (tr ++ [PEffect.artifactWrite Step.raw, PEffect.other "madx.exit"])

/-- `nominal`: log; when no line is passed, load the raw artifact (path
lookup first); match; save the nominal artifact (path lookup first). -/
def nominal_run (lineGiven : Bool) : Except (PyErr × List PEffect) (List PEffect) := do
  let tr := [PEffect.log "Creating nominal twiss table"]
  let tr ← if lineGiven then pure tr else do
    let tr := tr ++ [PEffect.log "Loading from file."]
    let _ ← get_line_path_attr tr
    pure (tr ++ [PEffect.artifactRead Step.raw])
  let tr := tr ++ [PEffect.matchCall]
  let _ ← get_line_path_attr tr
  Except.ok (tr ++ [PEffect.artifactWrite Step.nominal])

/-- `install_errors`: log; when no line is passed, load the nominal
artifact; set the two coupling knobs (`2e-4` each); match; save the
with_errors artifact. -/
def install_errors_run (lineGiven : Bool) : Except (PyErr × List PEffect) (List PEffect) := do
  let tr := [PEffect.log "Creating nominal twiss table"]
  let tr ← if lineGiven then pure tr else do
    let tr := tr ++ [PEffect.log "Loading from file."]
    let _ ← get_line_path_attr tr
    pure (tr ++ [PEffect.artifactRead Step.nominal])
  let tr := tr ++ [PEffect.setKnob "cmrs.b1" (2 / 10000),
                   PEffect.setKnob "cmis.b1" (2 / 10000),
                   PEffect.matchCall]
  let _ ← get_line_path_attr tr
  Except.ok (tr ++ [PEffect.artifactWrite Step.with_errors])

/-- `create_turn_by_turn_data`: when no line is passed, load the
with_errors artifact (path lookup first); then insert monitors, twiss,
build and track the particle, and write the sdds file (not a stage
artifact). -/
def create_turn_by_turn_run (lineGiven : Bool) :
    Except (PyErr × List PEffect) (List PEffect) := do
  let tr : List PEffect := []
  let tr ← if lineGiven then pure tr else do
    let tr := tr ++ [PEffect.log "Loading from file."]
    let _ ← get_line_path_attr tr
    pure (tr ++ [PEffect.artifactRead Step.with_errors])
  Except.ok (tr ++ [PEffect.insertMonitorsCall, PEffect.other "twiss",
                    PEffect.other "build_particles", PEffect.trackCall,
                    PEffect.other "convert_to_tbt", PEffect.sddsWrite])

/-- `create_omc3_model_dir`: when no line is passed, load the nominal
artifact (path lookup first); then write the omc3 directory contents
(twiss tables, modifiers script, symlink — none are stage artifacts). -/
def create_omc3_run (lineGiven : Bool) :
    Except (PyErr × List PEffect) (List PEffect) := do
  let tr : List PEffect := []
  let tr ← if lineGiven then pure tr else do
    let tr := tr ++ [PEffect.log "Loading from file."]
    let _ ← get_line_path_attr tr
    pure (tr ++ [PEffect.artifactRead Step.nominal])
  Except.ok (tr ++ [PEffect.other "mkdir omc3 dir", PEffect.other "twiss",
                    PEffect.other "write twiss_elements.dat",
                    PEffect.other "write twiss.dat",
                    PEffect.other "write modifiers.madx",
                    PEffect.other "copy acc-models symlink"])

/-- The trace of completed effects of a pipeline-stage run. -/
def resultTraceP : Except (PyErr × List PEffect) (List PEffect) → List PEffect
  | .ok tr => tr
  | .error p => p.2

/-- Whether a stage run raised `AttributeError` for `get_line_path`. -/
def raises_get_line_path : Except (PyErr × List PEffect) (List PEffect) → Bool
  | .error (.attributeError _ a, _) => a == "get_line_path"
  | .ok _ => false

/-- Whether a stage run performed no stage-artifact file IO at all. -/
def no_stage_artifact_io (r : Except (PyErr × List PEffect) (List PEffect)) : Bool :=
  (resultTraceP r).all (fun e => !e.isStageArtifactIO)

/-! ### Concrete inputs used by witnesses and counterexamples -/

/-- An empty filesystem: no modifier reference resolves anywhere. -/
def fsW : FS := ⟨[]⟩

/-- A filesystem containing exactly the file `/model/opticsfile.madx`
(the modifier as seen relative to the model directory). -/
def fsW2 : FS := ⟨[⟨true, ["model", "opticsfile.madx"]⟩]⟩

/-- A process working directory `/home`. -/
def cwdW : PPath := ⟨true, ["home"]⟩

/-- A model directory `/model`. -/
def mdW : PPath := ⟨true, ["model"]⟩

/-- The default relative `acc-models-lhc` link. -/
def accW : PPath := ⟨false, ["acc-models-lhc"]⟩

/-- A relative modifier reference. -/
def mW : PPath := ⟨false, ["opticsfile.madx"]⟩

/-- Constructor arguments with one unresolvable modifier (on `fsW`). -/
def cfgInitW : LHCInit := ⟨mdW, accW, some [mW]⟩

/-- The beam-1 configuration of `main()` (src/lhc_single_beam.py,
lines 270-277), restricted to the fields the loader reads. -/
def cfgB1 : BeamCfg :=
  { beam := 1,
    modifiers := ["R2025aRP_A18cmC18cmA10mL200cm_Flat.madx"],
    energy := 6800,
    n_particles := 150000000000,
    acc_models_link := "acc-models-lhc" }

/-- A regex oracle matching names that start with `bpm` (what
`re.match("BPM.*B[12]$", name, re.IGNORECASE)` does on the sample
names below). -/
def rmatchBpm : String → String → Bool := fun _ n => strStartsWith n "bpm"

/-- A regex oracle matching nothing. -/
def rmatchNone : String → String → Bool := fun _ _ => false

/-- A small line with two BPMs and a quadrupole. -/
def lineW : Line :=
  { element_names := ["bpm.a", "mq.1", "bpm.b"],
    s_position := fun n => if n = "bpm.a" then 10 else if n = "bpm.b" then 20 else 15,
    env_elements := [],
    insert_batches := [] }

/-- A twiss table with an interaction point, a drift, a BPM and a
quadrupole; chromaticities defined. -/
def twC6 : TwissIn :=
  { names := ["ip1", "drift_0", "bpm.1r1.b1", "mq.12l2.b1"],
    cols := ["name", "s", "betx", "bety", "length"],
    qx := 6228 / 100,
    qy := 6031 / 100,
    dq := some (2, 3) }

/-- Beta functions for the particle-construction witness. -/
noncomputable def twP : TwissOptics := ⟨[1], [4]⟩

/-! ## Helper lemmas -/

/-- Binding a raised exception short-circuits. -/
theorem except_error_bind {ε α β : Type} (e : ε) (f : α → Except ε β) :
    (Except.error e >>= f) = Except.error e := rfl

/-- A failing element makes the whole `mapM` of `_find_modifiers` fail. -/
theorem mapM_find_one_not_ok (fs : FS) (cwd md acc : PPath) :
    ∀ (ms : List PPath) (m : PPath), m ∈ ms →
    exOk (find_one_modifier fs cwd md acc m) = false →
    exOk (ms.mapM (find_one_modifier fs cwd md acc)) = false := by
  intro ms
  induction ms with
  | nil => intro m hm; cases hm
  | cons a t ih =>
    intro m hm hfail
    rw [List.mapM_cons]
    rcases List.mem_cons.mp hm with h | h
    · subst h
      cases hfa : find_one_modifier fs cwd md acc m with
      | error e => simp [hfa, except_error_bind, exOk]
      | ok v => rw [hfa] at hfail; simp [exOk] at hfail
    · cases hfa : find_one_modifier fs cwd md acc a with
      | error e => simp [hfa, except_error_bind, exOk]
      | ok v =>
        have htf := ih m h hfail
        cases hmt : t.mapM (find_one_modifier fs cwd md acc) with
        | error e => rfl
        | ok vs => rw [hmt] at htf; simp [exOk] at htf

/-! ## Claim theorems -/

/-- C3: every modifier reference is resolved by testing, in this fixed
order, (1) the reference made absolute, (2) the reference relative to
the model directory, (3) the reference under the acc-models link's
`operation/optics` subtree; the first location holding an existing file
wins and is recorded; if none does, `_find_modifiers` raises a
`FileNotFoundError` carrying the reference and all three attempted
locations, and `LHC.__post_init__` — hence construction — fails. -/
theorem c3_modifier_resolution (fs : FS) (cwd md acc m : PPath) :
    (fs.is_file (md.join (pathAbsolute cwd m)) = true →
      find_one_modifier fs cwd md acc m = Except.ok (pathAbsolute cwd m))
    ∧ (fs.is_file (md.join (pathAbsolute cwd m)) = false →
       fs.is_file (md.join m) = true →
      find_one_modifier fs cwd md acc m = Except.ok m)
    ∧ (fs.is_file (md.join (pathAbsolute cwd m)) = false →
       fs.is_file (md.join m) = false →
       fs.is_file (md.join (((acc.child "operation").child "optics").join m)) = true →
      find_one_modifier fs cwd md acc m =
        Except.ok (((acc.child "operation").child "optics").join m))
    ∧ (fs.is_file (md.join (pathAbsolute cwd m)) = false →
       fs.is_file (md.join m) = false →
       fs.is_file (md.join (((acc.child "operation").child "optics").join m)) = false →
      find_one_modifier fs cwd md acc m =
        Except.error ⟨m, [pathAbsolute cwd m, m,
                          ((acc.child "operation").child "optics").join m]⟩)
    ∧ (∀ cfg : LHCInit, cfg.model_dir = md → cfg.acc_models_link = acc →
       ∀ ms, cfg.modifiers = some ms → m ∈ ms →
       fs.is_file (md.join (pathAbsolute cwd m)) = false →
       fs.is_file (md.join m) = false →
       fs.is_file (md.join (((acc.child "operation").child "optics").join m)) = false →
      exOk (lhc_construct fs cwd cfg) = false) := by
  refine ⟨?_, ?_, ?_, ?_, ?_⟩
  · intro h1
    simp [find_one_modifier, modifier_sources, List.find?, h1]
  · intro h1 h2
    simp [find_one_modifier, modifier_sources, List.find?, h1, h2]
  · intro h1 h2 h3
    simp [find_one_modifier, modifier_sources, List.find?, h1, h2, h3]
  · intro h1 h2 h3
    simp [find_one_modifier, modifier_sources, List.find?, h1, h2, h3]
  · intro cfg hmd hacc ms hms hmem h1 h2 h3
    have hfail : exOk (find_one_modifier fs cwd md acc m) = false := by
      simp [find_one_modifier, modifier_sources, List.find?, h1, h2, h3, exOk]
    have hmapM := mapM_find_one_not_ok fs cwd md acc ms m hmem hfail
    rw [lhc_construct, hmd, hacc, hms]
    rw [find_modifiers]
    cases hres : ms.mapM (find_one_modifier fs cwd md acc) with
    | error e => simp [exOk, Except.map]
    | ok vs => rw [hres] at hmapM; simp [exOk] at hmapM

/-- Witness for C3: on an empty filesystem a single reference fails
with the error naming all three attempted locations and construction is
unusable; on a filesystem holding the file under the model directory,
the second location wins. -/
theorem c3_modifier_resolution_witness :
    (find_one_modifier fsW cwdW mdW accW mW =
      Except.error ⟨mW, [pathAbsolute cwdW mW, mW,
                         ((accW.child "operation").child "optics").join mW]⟩)
    ∧ exOk (lhc_construct fsW cwdW cfgInitW) = false
    ∧ find_one_modifier fsW2 cwdW mdW accW mW = Except.ok mW := by
  have h := c3_modifier_resolution fsW cwdW mdW accW mW
  have h2 := c3_modifier_resolution fsW2 cwdW mdW accW mW
  exact ⟨h.2.2.2.1 (by decide) (by decide) (by decide),
         h.2.2.2.2 cfgInitW rfl rfl [mW] rfl (by decide)
           (by decide) (by decide) (by decide),
         h2.2.1 (by decide) (by decide)⟩

/-- Engine effects wrapped into pipeline traces are never stage-artifact IO. -/
theorem all_engine_not_artifact (l : List MEffect) :
    (l.map PEffect.engine).all (fun e => !e.isStageArtifactIO) = true := by
  induction l with
  | nil => rfl
  | cons a t ih => simp [PEffect.isStageArtifactIO, ih]

/-- C1: `get_line_path` is defined neither on `LHCBeam` nor on `LHC`
(which provide `output_path` instead), so every stage operation that
persists or loads a stage artifact — `create_line` saving the raw
stage; `nominal` and `install_errors` (loading when `line=None` and
saving their stage either way); `create_turn_by_turn_data` and
`create_omc3_model_dir` loading when `line=None` — raises
`AttributeError` at the artifact-path lookup, and no stage-artifact
file is ever written or read through this path. -/
theorem c1_get_line_path_missing :
    lhc_attribute_names.contains "get_line_path" = false
    ∧ hasattr_lhcbeam "get_line_path" = false
    ∧ hasattr_lhcbeam "output_path" = true
    ∧ (∀ cfg : BeamCfg, raises_get_line_path (create_line_run cfg) = true
        ∧ no_stage_artifact_io (create_line_run cfg) = true)
    ∧ raises_get_line_path (nominal_run false) = true
    ∧ raises_get_line_path (nominal_run true) = true
    ∧ raises_get_line_path (install_errors_run false) = true
    ∧ raises_get_line_path (install_errors_run true) = true
    ∧ raises_get_line_path (create_turn_by_turn_run false) = true
    ∧ raises_get_line_path (create_omc3_run false) = true
    ∧ no_stage_artifact_io (nominal_run false) = true
    ∧ no_stage_artifact_io (nominal_run true) = true
    ∧ no_stage_artifact_io (install_errors_run false) = true
    ∧ no_stage_artifact_io (install_errors_run true) = true
    ∧ no_stage_artifact_io (create_turn_by_turn_run false) = true
    ∧ no_stage_artifact_io (create_turn_by_turn_run true) = true
    ∧ no_stage_artifact_io (create_omc3_run false) = true
    ∧ no_stage_artifact_io (create_omc3_run true) = true := by
  have hattr : hasattr_lhcbeam "get_line_path" = false := by decide
  refine ⟨by decide, hattr, by decide, ?_, by decide, by decide, by decide, by decide,
          by decide, by decide, by decide, by decide, by decide, by decide, by decide,
          by decide, by decide, by decide⟩
  intro cfg
  constructor
  · rfl
  · show (resultTraceP (create_line_run cfg)).all (fun e => !e.isStageArtifactIO) = true
    have : resultTraceP (create_line_run cfg) =
        [PEffect.log "Creating line"] ++
        (resultTrace (load_sequence_and_optics cfg okOracle)).map PEffect.engine ++
        [PEffect.other "Line.from_madx_sequence",
         PEffect.other "twiss_default method = 4d",
         PEffect.other "particle_ref"] := rfl
    rw [this]
    simp [List.all_append, all_engine_not_artifact, PEffect.isStageArtifactIO]

/-- Binding a success applies the continuation. -/
theorem except_ok_bind {ε α β : Type} (a : α) (f : α → Except ε β) :
    (Except.ok a >>= f) = f a := rfl

/-- Under the all-succeed oracle, the modifier loop appends one
`callModifier` effect per modifier, in order. -/
theorem foldlM_callModifier_ok (ms : List String) :
    ∀ tr : List MEffect,
    List.foldlM (fun (t : List MEffect) (m : String) =>
        (Except.ok (t ++ [MEffect.callModifier m]) :
          Except (MEffect × List MEffect) (List MEffect))) tr ms =
      Except.ok (tr ++ ms.map MEffect.callModifier) := by
  induction ms with
  | nil =>
    intro tr
    simp [List.foldlM]
    rfl
  | cons a t ih =>
    intro tr
    simp [List.foldlM, except_ok_bind, ih, List.append_assoc]

/-- The full trace of `load_sequence_and_optics` when every engine call
succeeds. -/
theorem load_ok_eq (cfg : BeamCfg) :
    load_sequence_and_optics cfg okOracle =
      Except.ok ([MEffect.madxStart,
        MEffect.callFile (cfg.acc_models_link ++ "/" ++ cfg.sequence_file),
        MEffect.seqedit cfg.sequence, MEffect.flatten,
        MEffect.cycle cfg.cycling_element, MEffect.endedit,
        MEffect.beamDecl cfg.sequence cfg.bv cfg.energy cfg.n_particles,
        MEffect.beamDecl (get_sequence_for_beam cfg.other_beam) (-cfg.bv)
          cfg.energy cfg.n_particles]
        ++ cfg.modifiers.map MEffect.callModifier
        ++ [MEffect.callFile
             (cfg.acc_models_link ++ "/toolkit/remove-triplet-symmetry-knob.madx")]) := by
  simp [load_sequence_and_optics, emitE, okOracle, except_ok_bind,
        foldlM_callModifier_ok, List.append_assoc]

/-- Counterexample to C7: with the concrete `main()` beam-1
configuration and a MAD-X failure raised by `madx.cycle(...)`, the run
aborts with the edit scope opened (`seqedit` completed) and `endedit`
never invoked — the open/close pairing is not exception-safe. -/
theorem c7_endedit_counterexample :
    exOk (load_sequence_and_optics cfgB1 cycleFailOracle) = false
    ∧ (resultTrace (load_sequence_and_optics cfgB1 cycleFailOracle)).contains
        (MEffect.seqedit "lhcb1") = true
    ∧ (resultTrace (load_sequence_and_optics cfgB1 cycleFailOracle)).contains
        MEffect.endedit = false := by decide

/-- C7 amended: in the non-raising execution `endedit` is invoked
before any beam-parameter declaration, but the pairing is not
exception-safe — when `madx.flatten()` or `madx.cycle(...)` raises, the
exception propagates and `endedit` is never invoked. -/
theorem c7_edit_scope_amended (cfg : BeamCfg) :
    editClosedBeforeBeam (resultTrace (load_sequence_and_optics cfg okOracle)) = true
    ∧ exOk (load_sequence_and_optics cfg flattenFailOracle) = false
    ∧ (resultTrace (load_sequence_and_optics cfg flattenFailOracle)).contains
        MEffect.endedit = false
    ∧ exOk (load_sequence_and_optics cfg cycleFailOracle) = false
    ∧ (resultTrace (load_sequence_and_optics cfg cycleFailOracle)).contains
        MEffect.endedit = false := by
  refine ⟨?_, rfl, ?_, rfl, ?_⟩
  · rw [load_ok_eq]
    simp [editClosedBeforeBeam, resultTrace, List.takeWhile, MEffect.isBeamDecl,
          List.contains]
  · show ([MEffect.madxStart,
      MEffect.callFile (cfg.acc_models_link ++ "/" ++ cfg.sequence_file),
      MEffect.seqedit cfg.sequence] : List MEffect).contains MEffect.endedit = false
    simp [List.contains]
  · show ([MEffect.madxStart,
      MEffect.callFile (cfg.acc_models_link ++ "/" ++ cfg.sequence_file),
      MEffect.seqedit cfg.sequence, MEffect.flatten] : List MEffect).contains
        MEffect.endedit = false
    simp [List.contains]

/-- C10: for each beam index in {1, 2, 4}, `load_sequence_and_optics`
declares beam parameters for the subject beam's sequence with its
circulation sign `bv` (−1 for beam 2, +1 otherwise, including beam 4)
and for the conjugate beam's sequence (beam 1 for beams 2 and 4, beam 2
for beam 1) with `−bv`, and both declarations precede every
optics-modifier application. -/
theorem c10_beam_declarations (md : List String) (acc : String) (en np : ℚ) :
    (∃ pre post,
      resultTrace (load_sequence_and_optics ⟨1, md, en, np, acc⟩ okOracle) = pre ++ post
      ∧ MEffect.beamDecl "lhcb1" 1 en np ∈ pre
      ∧ MEffect.beamDecl "lhcb2" (-1) en np ∈ pre
      ∧ pre.all (fun e => !e.isModifierCall) = true
      ∧ post = md.map MEffect.callModifier
          ++ [MEffect.callFile (acc ++ "/toolkit/remove-triplet-symmetry-knob.madx")])
    ∧ (∃ pre post,
      resultTrace (load_sequence_and_optics ⟨2, md, en, np, acc⟩ okOracle) = pre ++ post
      ∧ MEffect.beamDecl "lhcb2" (-1) en np ∈ pre
      ∧ MEffect.beamDecl "lhcb1" 1 en np ∈ pre
      ∧ pre.all (fun e => !e.isModifierCall) = true
      ∧ post = md.map MEffect.callModifier
          ++ [MEffect.callFile (acc ++ "/toolkit/remove-triplet-symmetry-knob.madx")])
    ∧ (∃ pre post,
      resultTrace (load_sequence_and_optics ⟨4, md, en, np, acc⟩ okOracle) = pre ++ post
      ∧ MEffect.beamDecl "lhcb2" 1 en np ∈ pre
      ∧ MEffect.beamDecl "lhcb1" (-1) en np ∈ pre
      ∧ pre.all (fun e => !e.isModifierCall) = true
      ∧ post = md.map MEffect.callModifier
          ++ [MEffect.callFile (acc ++ "/toolkit/remove-triplet-symmetry-knob.madx")]) := by
  refine ⟨⟨[MEffect.madxStart, MEffect.callFile (acc ++ "/" ++ "lhc.seq"),
      MEffect.seqedit "lhcb1", MEffect.flatten, MEffect.cycle "MSIA.EXIT.B1",
      MEffect.endedit, MEffect.beamDecl "lhcb1" 1 en np,
      MEffect.beamDecl "lhcb2" (-1) en np], _, ?_, by simp, by simp, rfl, rfl⟩,
    ⟨[MEffect.madxStart, MEffect.callFile (acc ++ "/" ++ "lhc.seq"),
      MEffect.seqedit "lhcb2", MEffect.flatten, MEffect.cycle "MKI.A5R8.B2",
      MEffect.endedit, MEffect.beamDecl "lhcb2" (-1) en np,
      MEffect.beamDecl "lhcb1" 1 en np], _, ?_, by simp, by simp, rfl, rfl⟩,
    ⟨[MEffect.madxStart, MEffect.callFile (acc ++ "/" ++ "lhcb4.seq"),
      MEffect.seqedit "lhcb2", MEffect.flatten, MEffect.cycle "MKI.A5R8.B2",
      MEffect.endedit, MEffect.beamDecl "lhcb2" 1 en np,
      MEffect.beamDecl "lhcb1" (-1) en np], _, ?_, by simp, by simp, rfl, rfl⟩⟩
  · have hs1 : (⟨1, md, en, np, acc⟩ : BeamCfg).sequence = "lhcb1" := by
      show get_sequence_for_beam 1 = "lhcb1"
      rfl
    have hs2 : get_sequence_for_beam (⟨1, md, en, np, acc⟩ : BeamCfg).other_beam = "lhcb2" := by
      show get_sequence_for_beam 2 = "lhcb2"
      rfl
    rw [load_ok_eq, hs1, hs2]
    exact rfl
  · have hs1 : (⟨2, md, en, np, acc⟩ : BeamCfg).sequence = "lhcb2" := by
      show get_sequence_for_beam 2 = "lhcb2"
      rfl
    have hs2 : get_sequence_for_beam (⟨2, md, en, np, acc⟩ : BeamCfg).other_beam = "lhcb1" := by
      show get_sequence_for_beam 1 = "lhcb1"
      rfl
    rw [load_ok_eq, hs1, hs2]
    exact rfl
  · have hs1 : (⟨4, md, en, np, acc⟩ : BeamCfg).sequence = "lhcb2" := by
      show get_sequence_for_beam 4 = "lhcb2"
      rfl
    have hs2 : get_sequence_for_beam (⟨4, md, en, np, acc⟩ : BeamCfg).other_beam = "lhcb1" := by
      show get_sequence_for_beam 1 = "lhcb1"
      rfl
    rw [load_ok_eq, hs1, hs2]
    exact rfl

/-- C2 (code bug): for beam 1, `chroma=True` and the default
`step=1e-8`, `tol=1e-10`, the `vary` list handed to the solver holds
the two tune-knob `xt.Vary` entries plus the appended generator object,
so it contains zero chromaticity-knob `xt.Vary` entries (the claim and
the spec require two, `dqpx.b1_op` and `dqpy.b1_op`), while the
chromaticity `xt.TargetSet` is added to the targets — so the solver
receives chromaticity targets without any chromaticity knob to vary. -/
theorem c2_chroma_vary_generator :
    match_vary 1 (1 / 100000000) true =
      [VaryItem.vary "dqx.b1_op" (1 / 100000000),
       VaryItem.vary "dqy.b1_op" (1 / 100000000),
       VaryItem.generatorObject]
    ∧ (match_vary 1 (1 / 100000000) true).countP (fun v => v.isChromaVary) = 0
    ∧ (match_vary 1 (1 / 100000000) true).countP
        (fun v => match v with | VaryItem.vary _ _ => true | _ => false) = 2
    ∧ match_targets (6228 / 100) (6031 / 100) 3 (1 / 10000000000) true =
      [TargetItem.tunes (6228 / 100) (6031 / 100) (1 / 10000000000),
       TargetItem.chromas 3 3 (1 / 10000000000)] :=
  ⟨rfl, by decide, by decide, rfl⟩

/-- Counterexample to C8: the xtrack solver's default on failing to
reach tolerance is to raise (`assert_within_tol`, left at its default
by the commented-out line), and `match` installs no handler, so the run
aborts rather than returning normally; moreover the only log message of
`match` is emitted before the solve (inside the trace head), so `match`
never reports the non-convergence. -/
theorem c8_nonconvergence_counterexample :
    exOk (match_run 1 (6228 / 100) (6031 / 100) 3 (1 / 100000000) (1 / 10000000000)
      false (Except.error "Could not find a point within tolerance.")) = false
    ∧ (resultTraceX (match_run 1 (6228 / 100) (6031 / 100) 3 (1 / 100000000)
        (1 / 10000000000) false
        (Except.error "Could not find a point within tolerance."))).countP
        XEffect.isLogInfo = 1
    ∧ (resultTraceX (match_run 1 (6228 / 100) (6031 / 100) 3 (1 / 100000000)
        (1 / 10000000000) false
        (Except.error "Could not find a point within tolerance."))).head? =
      some (XEffect.logInfo "Matching line to natural tunes") := by decide

/-- C8 amended: `match` neither reports non-convergence nor converts
solver exceptions — its single log message is emitted before the solve
(so it cannot describe the outcome), the solve runs inside the
logging-suppression scope, and `match` returns normally exactly when
the solver's `solve` call does, propagating the solver's exception
otherwise. -/
theorem c8_match_policy_amended (beam : Nat) (qx qy ct step tol : ℚ) (chroma : Bool)
    (outcome : Except String Unit) :
    exOk (match_run beam qx qy ct step tol chroma outcome) = exOk outcome
    ∧ (resultTraceX (match_run beam qx qy ct step tol chroma outcome)).countP
        XEffect.isLogInfo = 1
    ∧ (resultTraceX (match_run beam qx qy ct step tol chroma outcome)).head? =
      some (XEffect.logInfo (match_log_msg chroma))
    ∧ (∀ e, outcome = Except.error e →
        match_run beam qx qy ct step tol chroma outcome =
          Except.error (e, [XEffect.logInfo (match_log_msg chroma),
            XEffect.disableLoggingEnter,
            XEffect.lineMatch (match_vary beam step chroma)
              (match_targets qx qy ct tol chroma),
            XEffect.disableLoggingExit])) := by
  cases outcome with
  | ok u =>
    refine ⟨rfl, ?_, rfl, ?_⟩
    · simp [match_run, resultTraceX, List.countP, List.countP.go, XEffect.isLogInfo]
    · intro e he; cases he
  | error e =>
    refine ⟨rfl, ?_, rfl, ?_⟩
    · simp [match_run, resultTraceX, List.countP, List.countP.go, XEffect.isLogInfo]
    · intro e2 he2
      cases he2
      rfl

/-- Witness for C8 (amended): a concrete non-converged raising solve
propagates out of `match` with the expected trace. -/
theorem c8_match_policy_amended_witness :
    match_run 1 (6228 / 100) (6031 / 100) 3 1 1 false (Except.error "NotWithinTol") =
      Except.error ("NotWithinTol", [XEffect.logInfo (match_log_msg false),
        XEffect.disableLoggingEnter,
        XEffect.lineMatch (match_vary 1 1 false)
          (match_targets (6228 / 100) (6031 / 100) 3 1 false),
        XEffect.disableLoggingExit]) :=
  (c8_match_policy_amended 1 (6228 / 100) (6031 / 100) 3 1 1 false
    (Except.error "NotWithinTol")).2.2.2 "NotWithinTol" rfl

/-- Looking up the key just registered hits the new binding. -/
theorem envLookup_prepend_hit (env : List (String × Monitor)) (k : String) (v : Monitor) :
    envLookup ((k, v) :: env) k = some v := by
  simp [envLookup, List.find?]

/-- Registering further monitors (all carrying the same base value)
preserves a binding to that value. -/
theorem envLookup_preserved (base : Monitor) :
    ∀ (t : List String) (env : List (String × Monitor)) (k : String),
    envLookup env k = some base →
    envLookup (t.foldl (fun e n => (n ++ "_monitor", base) :: e) env) k = some base := by
  intro t
  induction t with
  | nil => intro env k h; exact h
  | cons a t ih =>
    intro env k h
    refine ih _ k ?_
    cases hb : ((a ++ "_monitor" : String) == k) with
    | true =>
      have : (a ++ "_monitor" : String) = k := by simpa using hb
      subst this
      exact envLookup_prepend_hit env _ base
    | false => simpa [envLookup, List.find?, hb] using h

/-- After the registration loop, every selected element's monitor is
registered with the base monitor's configuration. -/
theorem envLookup_after_insert (base : Monitor) :
    ∀ (ks : List String) (env : List (String × Monitor)) (n : String), n ∈ ks →
    envLookup (ks.foldl (fun e m => (m ++ "_monitor", base) :: e) env)
      (n ++ "_monitor") = some base := by
  intro ks
  induction ks with
  | nil => intro env n h; cases h
  | cons a t ih =>
    intro env n h
    rcases List.mem_cons.mp h with h | h
    · subst h
      exact envLookup_preserved base t _ _ (envLookup_prepend_hit env _ base)
    · exact ih _ n h

/-- C4: when N ≥ 1 element names match the pattern, the function
registers exactly N monitors, each a copy of the single template
configured for turns [0, n_turns) and the given particle count, each
under the derived `<element>_monitor` name, each placed at the matched
element's longitudinal position, and applies all N placement
instructions in one single batch `line.insert` call. -/
theorem c4_insert_monitors (rmatch : String → String → Bool) (line : Line)
    (patt : String) (n_turns n_particles : Nat)
    (h : line.element_names.filter (fun n => rmatch patt n) ≠ []) :
    (insert_monitors_at_pattern rmatch line patt n_turns n_particles).err = none
    ∧ (insert_monitors_at_pattern rmatch line patt n_turns n_particles).monitors_constructed
        = (line.element_names.filter (fun n => rmatch patt n)).length
    ∧ (insert_monitors_at_pattern rmatch line patt n_turns n_particles).line.insert_batches
        = line.insert_batches ++
          [(line.element_names.filter (fun n => rmatch patt n)).map
            (fun n => Place.mk (n ++ "_monitor") (line.s_position n))]
    ∧ (∀ n ∈ line.element_names.filter (fun n => rmatch patt n),
        envLookup
          (insert_monitors_at_pattern rmatch line patt n_turns n_particles).line.env_elements
          (n ++ "_monitor") = some ⟨0, n_turns, n_particles⟩)
    ∧ (insert_monitors_at_pattern rmatch line patt n_turns n_particles).line.element_names
        = line.element_names := by
  have hne : (line.element_names.filter (fun n => rmatch patt n)).isEmpty = false := by
    cases hl : line.element_names.filter (fun n => rmatch patt n) with
    | nil => exact absurd hl h
    | cons a t => rfl
  rw [insert_monitors_at_pattern, hne]
  refine ⟨rfl, rfl, rfl, ?_, rfl⟩
  intro n hn
  exact envLookup_after_insert _ _ _ n hn

/-- Witness for C4: on the sample line, the two matching BPMs get
monitors at their positions, in one batch. -/
theorem c4_insert_monitors_witness :
    (insert_monitors_at_pattern rmatchBpm lineW "BPM.*B[12]$" 5 1).err = none
    ∧ (insert_monitors_at_pattern rmatchBpm lineW "BPM.*B[12]$" 5 1).monitors_constructed = 2
    ∧ (insert_monitors_at_pattern rmatchBpm lineW "BPM.*B[12]$" 5 1).line.insert_batches
        = [[Place.mk "bpm.a_monitor" 10, Place.mk "bpm.b_monitor" 20]]
    ∧ envLookup (insert_monitors_at_pattern rmatchBpm lineW "BPM.*B[12]$" 5 1).line.env_elements
        "bpm.a_monitor" = some ⟨0, 5, 1⟩ := by
  have h := c4_insert_monitors rmatchBpm lineW "BPM.*B[12]$" 5 1 (by decide)
  refine ⟨h.1, ?_, ?_, ?_⟩
  · rw [h.2.1]; decide
  · rw [h.2.2.1]; decide
  · have hm := h.2.2.2.1 "bpm.a" (by decide)
    exact hm

/-- C5: when zero element names match the pattern, the function raises
the `ValueError` naming the attempted pattern before any monitor is
constructed, registered or inserted, and the line is left unchanged. -/
theorem c5_empty_selection (rmatch : String → String → Bool) (line : Line)
    (patt : String) (n_turns n_particles : Nat)
    (h : line.element_names.filter (fun n => rmatch patt n) = []) :
    (insert_monitors_at_pattern rmatch line patt n_turns n_particles).err = some ⟨patt⟩
    ∧ (insert_monitors_at_pattern rmatch line patt n_turns n_particles).line = line
    ∧ (insert_monitors_at_pattern rmatch line patt n_turns n_particles).monitors_constructed
        = 0 := by
  rw [insert_monitors_at_pattern, h]
  exact ⟨rfl, rfl, rfl⟩

/-- Witness for C5: a pattern matching nothing on the sample line
raises with the pattern recorded and leaves the line untouched. -/
theorem c5_empty_selection_witness :
    (insert_monitors_at_pattern rmatchNone lineW "ZZZ.*" 5 1).err = some ⟨"ZZZ.*"⟩
    ∧ (insert_monitors_at_pattern rmatchNone lineW "ZZZ.*" 5 1).line = lineW
    ∧ (insert_monitors_at_pattern rmatchNone lineW "ZZZ.*" 5 1).monitors_constructed = 0 :=
  c5_empty_selection rmatchNone lineW "ZZZ.*" 5 1 (by decide)

/-- Filtering the `M|BPM|IP` rows down to the `BPM` rows selects
exactly the `BPM` rows of the original index (`BPM` implies the
`M|BPM|IP` alternation). -/
theorem filter_bpm_of_filter_mbpmip (l : List String) :
    (l.filter matchesMBPMIP).filter (fun s => strStartsWith s "BPM")
      = l.filter (fun s => strStartsWith s "BPM") := by
  induction l with
  | nil => rfl
  | cons a t ih =>
    cases hb : strStartsWith a "BPM" with
    | true =>
      have hm : matchesMBPMIP a = true := by simp [matchesMBPMIP, hb]
      simp [List.filter_cons, hm, hb, ih]
    | false =>
      cases hm : matchesMBPMIP a <;> simp [List.filter_cons, hm, hb, ih]

/-- Counterexample to C6: the full-element-list claim fails — the
element `drift_0` of the lattice is dropped from `twiss_elements`
because `twiss_to_omc3` keeps only rows matching `M|BPM|IP`. -/
theorem c6_full_elements_counterexample :
    (twC6.names.map strToUpper).contains "DRIFT_0" = true
    ∧ (create_omc3_export twC6 6800 ["opticsfile.madx"]).twiss_elements_index.contains
        "DRIFT_0" = false
    ∧ (create_omc3_export twC6 6800 ["opticsfile.madx"]).twiss_elements_index.contains
        "IP1" = true := by decide

/-- C6 amended: `twiss_elements` contains exactly the rows whose
uppercased names match the `M|BPM|IP` convention (magnets, monitors,
interaction points) — not every lattice element — and `twiss` exactly
the rows matching the `BPM` convention; both use the uppercase names, a
column set restricted to `TWISS_COLUMNS`, headers with the tunes
`Q1`/`Q2` and, when defined, `DQ1`/`DQ2`; and `modifiers.madx` holds
one call line per configured modifier in order. -/
theorem c6_omc3_export_amended (tw : TwissIn) (energy : ℚ) (mods : List String) :
    (create_omc3_export tw energy mods).twiss_elements_index
        = (tw.names.map strToUpper).filter matchesMBPMIP
    ∧ (create_omc3_export tw energy mods).twiss_index
        = (tw.names.map strToUpper).filter (fun s => strStartsWith s "BPM")
    ∧ (∀ c ∈ (create_omc3_export tw energy mods).columns, c ∈ TWISS_COLUMNS)
    ∧ (∀ n ∈ (create_omc3_export tw energy mods).twiss_elements_index,
        ∃ m ∈ tw.names, n = strToUpper m)
    ∧ ("Q1", tw.qx) ∈ (create_omc3_export tw energy mods).headers
    ∧ ("Q2", tw.qy) ∈ (create_omc3_export tw energy mods).headers
    ∧ (∀ a b, tw.dq = some (a, b) →
        ("DQ1", a) ∈ (create_omc3_export tw energy mods).headers
        ∧ ("DQ2", b) ∈ (create_omc3_export tw energy mods).headers)
    ∧ (create_omc3_export tw energy mods).modifiers_madx
        = mods.map (fun m => "call, file = \"" ++ m ++ "\";") := by
  refine ⟨rfl, ?_, ?_, ?_, ?_, ?_, ?_, rfl⟩
  · exact filter_bpm_of_filter_mbpmip _
  · intro c hc
    exact List.mem_of_mem_filter hc
  · intro n hn
    have hn2 : n ∈ tw.names.map strToUpper := List.mem_of_mem_filter hn
    rcases List.mem_map.mp hn2 with ⟨m, hm, hmu⟩
    exact ⟨m, hm, hmu.symm⟩
  · simp [create_omc3_export, twiss_to_omc3]
  · simp [create_omc3_export, twiss_to_omc3]
  · intro a b hdq
    constructor <;> simp [create_omc3_export, twiss_to_omc3, hdq]

/-- Witness for C6 (amended): the concrete table's chromaticity headers
are present. -/
theorem c6_omc3_export_amended_witness :
    ("DQ1", (2 : ℚ)) ∈ (create_omc3_export twC6 6800 ["opticsfile.madx"]).headers
    ∧ ("DQ2", (3 : ℚ)) ∈ (create_omc3_export twC6 6800 ["opticsfile.madx"]).headers :=
  (c6_omc3_export_amended twC6 6800 ["opticsfile.madx"]).2.2.2.2.2.2.1 2 3 rfl

/-- C9: `create_turn_by_turn_data` constructs exactly one particle with
initial offsets `x = sqrt(action * betx[0])`, `y = sqrt(action *
bety[0])` — the beta functions taken at the first lattice element — and
zero initial transverse angles; in particular both offsets vanish for
`action = 0`. -/
theorem c9_initial_particle (tw : TwissOptics) (action : ℝ) :
    (tbt_initial_particle tw action).num_particles = 1
    ∧ (tbt_initial_particle tw action).x = Real.sqrt (action * tw.betx.headI)
    ∧ (tbt_initial_particle tw action).y = Real.sqrt (action * tw.bety.headI)
    ∧ (tbt_initial_particle tw action).px = 0
    ∧ (tbt_initial_particle tw action).py = 0
    ∧ (action = 0 →
        (tbt_initial_particle tw action).x = 0 ∧ (tbt_initial_particle tw action).y = 0) := by
  refine ⟨rfl, rfl, rfl, rfl, rfl, ?_⟩
  intro h
  subst h
  constructor <;> simp [tbt_initial_particle]

/-- Witness for C9: at zero action both initial offsets are zero. -/
theorem c9_initial_particle_witness :
    (tbt_initial_particle twP 0).x = 0 ∧ (tbt_initial_particle twP 0).y = 0 :=
  (c9_initial_particle twP 0).2.2.2.2.2 rfl

end LhcXsuite
